import Mathlib

/-!
Shallow embedding of `STACpopulator/stac_utils.py` and verification of its
specification.

Modelling conventions:
* Python `str` values used as URLs are modelled as `List Char`; `os.path.join`
  (posixpath) is modelled by `osPathJoin`.
* JSON-like Python values (the collection descriptor and documents) are modelled
  by the inductive type `Value`; Python `dict`s are insertion-ordered
  association lists with unique keys, with `dictGet` / `dictPop` / `dictSet`
  mirroring `d[k]` / `d.pop(k)` / `d[k] = v`.
* `datetime` objects produced by `datetime.strptime(s, "%Y-%m-%d")` are kept
  structured as `Value.date y m d` (midnight is implicit).
* Network I/O is modelled by passing the relevant HTTP response(s) as explicit
  arguments: a response is either a transport-level failure or a status code.
  `requests.Response.raise_for_status` raises `HTTPError` exactly for status
  codes in `[400, 600)`.
* The module-level `bcolors` color-code constants referenced by the print
  statements are not part of this file; printing is modelled from the spec
  (console info/warning output) as boolean log flags in the result record.
-/

namespace StacUtils

/-- JSON-like values: strings, numbers, booleans, `None`, parsed datetimes,
lists and (insertion-ordered) dictionaries. -/
inductive Value where
  | str (s : String)
  | num (n : Int)
  | boolean (b : Bool)
  | null
  | date (y m d : Nat)
  | arr (xs : List Value)
  | obj (kvs : List (String × Value))

/-- Keys of a Python-dict model (insertion order). -/
def keys (m : List (String × Value)) : List String := m.map Prod.fst

/-- `d[k]` / `d.get(k)`: first binding of `k` (dicts keep keys unique). -/
def dictGet (k : String) : List (String × Value) → Option Value
  | [] => none
  | (k1, v) :: t => if k1 = k then some v else dictGet k t

/-- Remove the first binding of `k`. -/
def dictRemove (k : String) : List (String × Value) → List (String × Value)
  | [] => []
  | (k1, v) :: t => if k1 = k then t else (k1, v) :: dictRemove k t

/-- `d.pop(k)` without default: the value and the remaining dict, or `none`
(Python raises `KeyError`) when `k` is absent. -/
def dictPop (k : String) (m : List (String × Value)) :
    Option (Value × List (String × Value)) :=
  match dictGet k m with
  | none => none
  | some v => some (v, dictRemove k m)

/-- `d[k] = v`: replace in place when `k` is present, else append. -/
def dictSet (k : String) (v : Value) : List (String × Value) → List (String × Value)
  | [] => [(k, v)]
  | (k1, v1) :: t => if k1 = k then (k, v) :: t else (k1, v1) :: dictSet k v t

/-- Does the string (as a char list) start with `/`. -/
def startsWithSlash : List Char → Bool
  | [] => false
  | c :: _ => c = '/'

/-- Does the string (as a char list) end with `/`. -/
def endsWithSlash (l : List Char) : Bool :=
  match l.getLast? with
  | some c => c = '/'
  | none => false

/-- One step of posixpath `os.path.join`: an absolute second component
discards everything before it; otherwise a `/` separator is inserted unless
the accumulated path is empty or already ends in `/`. -/
def osPathJoin (a b : List Char) : List Char :=
  if startsWithSlash b then b
  else if a = [] ∨ endsWithSlash a then a ++ b
  else a ++ '/' :: b

/-- The URL `os.path.join(stac_host, "collections", collection_id)` used by
`stac_collection_exists`. -/
def collectionItemUrl (stacHost collectionId : List Char) : List Char :=
  osPathJoin (osPathJoin stacHost "collections".data) collectionId

/-- The URL `os.path.join(stac_host, "collections")` used by
`post_stac_collection` for both the POST and the PUT. -/
def collectionsUrl (stacHost : List Char) : List Char :=
  osPathJoin stacHost "collections".data

/-- Transport-level failures of the HTTP client (`requests` raises a subclass
of `RequestException` for all of these). -/
inductive TransportErr where
  | connectionRefused
  | timeout
  | dns
  | tls
  deriving DecidableEq, Repr

/-- A GET response: either a transport-level failure or an HTTP status code. -/
def HttpResp : Type := Except TransportErr Nat

/-- `Response.raise_for_status` raises `requests.exceptions.HTTPError` exactly
for client-error (4xx) and server-error (5xx) status codes. -/
def raisesForStatus (code : Nat) : Bool :=
  decide (400 ≤ code) && decide (code < 600)

/-- `stac_host_reachable(url)`: GET the URL, `raise_for_status()`, return
`True`; every `RequestException` (transport failures and `HTTPError` alike) is
caught and turned into `False`. The function is total: it never raises. -/
def stac_host_reachable (resp : HttpResp) : Bool :=
  match resp with
  | .error _ => false
  | .ok code => ! raisesForStatus code

/-- `stac_collection_exists(stac_host, collection_id)`: GET
`os.path.join(stac_host, "collections", collection_id)` and compare the status
code with 200. The server is modelled as a function from URL to status. -/
def stac_collection_exists (server : List Char → Nat)
    (stacHost collectionId : List Char) : Bool :=
  server (collectionItemUrl stacHost collectionId) == 200

/-- HTTP methods used by the module. -/
inductive Method where
  | get
  | post
  | put
  deriving DecidableEq, Repr

/-- One network request issued by the publisher. -/
structure Request where
  method : Method
  url : List Char
  body : List (String × Value)

/-- `requests.exceptions.HTTPError`, as produced by `raise_for_status`. -/
structure HTTPError where
  status : Nat
  deriving DecidableEq, Repr

/-- Exceptions `post_stac_collection` can raise. -/
inductive PostErr where
  | keyError
  | http (e : HTTPError)
  deriving DecidableEq, Repr

/-- Observable behaviour of one `post_stac_collection` call: the requests
issued in order, the outcome, and the console messages (modelled from the
spec as flags: an info line on create, a warning line on conflict). -/
structure PostResult where
  requests : List Request
  outcome : Except PostErr Unit
  infoLogged : Bool
  warned : Bool

/-- `post_stac_collection(stac_host, json_data)`: read `json_data["id"]`
(`KeyError` when absent), POST `os.path.join(stac_host, "collections")` with
the JSON body; on 200 log info and return, on 409 log a warning and PUT the
same body to the same URL, then `raise_for_status()` on the PUT response; on
any other status `raise_for_status()` on the POST response. The statuses the
server answers with for the POST and the (potential) PUT are explicit
arguments. -/
def post_stac_collection (postStatus putStatus : Nat) (stacHost : List Char)
    (jsonData : List (String × Value)) : PostResult :=
  match dictGet "id" jsonData with
  | none => ⟨[], .error .keyError, false, false⟩
  | some _ =>
    let url := collectionsUrl stacHost
    let postReq : Request := ⟨.post, url, jsonData⟩
    if postStatus = 200 then
      ⟨[postReq], .ok (), true, false⟩
    else if postStatus = 409 then
      let putReq : Request := ⟨.put, url, jsonData⟩
      if raisesForStatus putStatus then
        ⟨[postReq, putReq], .error (.http ⟨putStatus⟩), false, true⟩
      else
        ⟨[postReq, putReq], .ok (), false, true⟩
    else
      if raisesForStatus postStatus then
        ⟨[postReq], .error (.http ⟨postStatus⟩), false, false⟩
      else
        ⟨[postReq], .ok (), false, false⟩

/-- Numeric value of a decimal digit character. -/
def digitVal (c : Char) : Nat := c.toNat - '0'.toNat

/-- CPython `_strptime` directive `%Y`: exactly four decimal digits. -/
def parseYear4 : List Char → Option (Nat × List Char)
  | c1 :: c2 :: c3 :: c4 :: rest =>
    if c1.isDigit && c2.isDigit && c3.isDigit && c4.isDigit then
      some (1000 * digitVal c1 + 100 * digitVal c2 + 10 * digitVal c3 + digitVal c4, rest)
    else none
  | _ => none

/-- CPython `_strptime` directive `%m`: the ordered alternation
`1[0-2] | 0[1-9] | [1-9]` (zero-padding optional). -/
def parseMonth : List Char → Option (Nat × List Char)
  | c1 :: c2 :: rest =>
    if c1 == '1' && decide ('0' ≤ c2) && decide (c2 ≤ '2') then
      some (10 + digitVal c2, rest)
    else if c1 == '0' && decide ('1' ≤ c2) && decide (c2 ≤ '9') then
      some (digitVal c2, rest)
    else if decide ('1' ≤ c1) && decide (c1 ≤ '9') then
      some (digitVal c1, c2 :: rest)
    else none
  | [c1] =>
    if decide ('1' ≤ c1) && decide (c1 ≤ '9') then some (digitVal c1, []) else none
  | [] => none

/-- CPython `_strptime` directive `%d`: the ordered alternation
`3[01] | [12]\d | 0[1-9] | [1-9]` (zero-padding optional). -/
def parseDay : List Char → Option (Nat × List Char)
  | c1 :: c2 :: rest =>
    if c1 == '3' && (c2 == '0' || c2 == '1') then
      some (30 + digitVal c2, rest)
    else if (c1 == '1' || c1 == '2') && c2.isDigit then
      some (10 * digitVal c1 + digitVal c2, rest)
    else if c1 == '0' && decide ('1' ≤ c2) && decide (c2 ≤ '9') then
      some (digitVal c2, rest)
    else if decide ('1' ≤ c1) && decide (c1 ≤ '9') then
      some (digitVal c1, c2 :: rest)
    else none
  | [c1] =>
    if decide ('1' ≤ c1) && decide (c1 ≤ '9') then some (digitVal c1, []) else none
  | [] => none

/-- Gregorian leap-year test, as in Python's `datetime`. -/
def isLeapYear (y : Nat) : Bool :=
  y % 4 == 0 && (y % 100 != 0 || y % 400 == 0)

/-- Days in a month, as validated by the `datetime` constructor. -/
def daysInMonth (y m : Nat) : Nat :=
  if m == 2 then (if isLeapYear y then 29 else 28)
  else if m == 4 || m == 6 || m == 9 || m == 11 then 30
  else 31

/-- `datetime.strptime(s, "%Y-%m-%d")` returning the date, or `none` when
Python raises `ValueError`: the pattern must match a prefix, nothing may be
left over ("unconverted data remains"), and the `datetime` constructor checks
`1 ≤ year` and that the day exists in the month. -/
def strptimeYmd (s : String) : Option (Nat × Nat × Nat) :=
  match parseYear4 s.data with
  | none => none
  | some (y, r1) =>
    match r1 with
    | '-' :: r2 =>
      match parseMonth r2 with
      | none => none
      | some (m, r3) =>
        match r3 with
        | '-' :: r4 =>
          match parseDay r4 with
          | none => none
          | some (d, r5) =>
            if r5.isEmpty && decide (1 ≤ y) && decide (d ≤ daysInMonth y m) then
              some (y, m, d)
            else none
        | _ => none
    | _ => none

/-- Exceptions `create_stac_collection` can raise. -/
inductive CreateErr where
  | keyError
  | typeError
  | indexError
  | valueError
  deriving DecidableEq, Repr

/-- One temporal bound: `datetime.strptime(b, "%Y-%m-%d") if b is not None
else None`. A non-string non-`None` bound makes `strptime` raise `TypeError`;
an unparsable string raises `ValueError`. -/
def parseBound (v : Value) : Except CreateErr (Option (Nat × Nat × Nat)) :=
  match v with
  | .null => .ok none
  | .str s =>
    match strptimeYmd s with
    | some ymd => .ok (some ymd)
    | none => .error .valueError
  | _ => .error .typeError

/-- Serialization of one temporal bound inside the collection document. -/
def boundValue (b : Option (Nat × Nat × Nat)) : Value :=
  match b with
  | none => .null
  | some (y, m, d) => .date y m d

/-- Serialized form of `pystac.Extent(pystac.SpatialExtent([bbox]),
pystac.TemporalExtent([[b0, b1]]))`: the single bbox wrapped in a list and the
single interval wrapped in a list. -/
def extentValue (spatial : Value) (b0 b1 : Option (Nat × Nat × Nat)) : Value :=
  .obj [("spatial", .obj [("bbox", .arr [spatial])]),
        ("temporal", .obj [("interval", .arr [.arr [boundValue b0, boundValue b1]])])]

/-- Serialized form of
`pystac.Summaries({"needs_summaries_update": ["true"]})`. -/
def summariesValue : Value :=
  .obj [("needs_summaries_update", .arr [.str "true"])]

/-- Modelled from the spec: the keyword parameters of the external
`pystac.Collection` constructor (not part of this repository) — the fields
"accepted by the STAC Collection object model" that the spec allows as
pass-through, matching the `Collection.__init__` signature of pystac 1.x.
`id` is passed positionally by the source, so an `id` keyword is not
accepted either (it would raise `TypeError: multiple values`). -/
def collectionKwargNames : List String :=
  ["description", "extent", "title", "stac_extensions", "href", "extra_fields",
   "catalog_type", "license", "keywords", "providers", "summaries", "assets"]

/-- Modelled from the spec: `pystac.Collection(id=..., **kwargs)` constructs
without raising iff the required `description` field is present and every
keyword is an accepted constructor parameter; otherwise the builder "fails
(propagates) if required constructor fields are missing" with a
`TypeError`. -/
def pystacCollectionCheck (kwargs : List (String × Value)) : Bool :=
  (dictGet "description" kwargs).isSome &&
    (keys kwargs).all fun k => collectionKwargNames.contains k

/-- `pystac.Collection(id=collection_id, **kwargs).to_dict()` for keyword
fields that passed the constructor check, modelled as the type tag and the id
followed by the keyword fields the constructor received (the constructor-set
values come first, so they win any lookup). -/
def collectionToDict (cid : String) (kwargs : List (String × Value)) : Value :=
  .obj (("type", .str "Collection") :: ("id", .str cid) :: kwargs)

/-- Observable behaviour of one successful `create_stac_collection` call. -/
structure CreateResult where
  mutatedInfo : List (String × Value)
  forwarded : List (String × Value)
  doc : Value

/-- `create_stac_collection(collection_id, collection_info)`: pop
`spatialextent` and `temporalextent` out of the caller's dict, parse the two
temporal bounds in order, store the assembled extent and the placeholder
summaries back into the dict, pass it as keyword arguments to
`pystac.Collection` and return `collection.to_dict()`; the constructor
raises `TypeError` when `description` is missing or a keyword is not one of
its parameters. `mutatedInfo` is the caller's dict after the call and
`forwarded` the keyword arguments the constructor received (in the source
both are the same object). -/
def create_stac_collection (collectionId : String)
    (collectionInfo : List (String × Value)) : Except CreateErr CreateResult :=
  match dictPop "spatialextent" collectionInfo with
  | none => .error .keyError
  | some (spatial, info1) =>
    match dictPop "temporalextent" info1 with
    | none => .error .keyError
    | some (tmp, info2) =>
      match tmp with
      | .arr ts =>
        match ts.get? 0 with
        | none => .error .indexError
        | some t0 =>
          match parseBound t0 with
          | .error e => .error e
          | .ok b0 =>
            match ts.get? 1 with
            | none => .error .indexError
            | some t1 =>
              match parseBound t1 with
              | .error e => .error e
              | .ok b1 =>
                let info3 := dictSet "extent" (extentValue spatial b0 b1) info2
                let info4 := dictSet "summaries" summariesValue info3
                if pystacCollectionCheck info4 then
                  .ok ⟨info4, info4, collectionToDict collectionId info4⟩
                else .error .typeError
      | _ => .error .typeError

/-- Lookup of a nested path of object keys inside a JSON value, used to state
properties such as `extent.spatial.bbox` of a collection document. -/
def getAt (v : Value) : List String → Option Value
  | [] => some v
  | k :: p =>
    match v with
    | .obj kvs =>
      match dictGet k kvs with
      | some w => getAt w p
      | none => none
    | _ => none

/-- The world bounding box `[-180, -90, 180, 90]` used by the spec's concrete
builder example. -/
def worldBbox : Value :=
  .arr [.num (-180), .num (-90), .num 180, .num 90]

/-- The dict `create_stac_collection` ends up passing to `pystac.Collection`
(and leaving in the caller's variable): the descriptor minus the two popped
keys, with `extent` and `summaries` stored into it. -/
def builtInfo (spatial : Value) (b0 b1 : Option (Nat × Nat × Nat))
    (info2 : List (String × Value)) : List (String × Value) :=
  dictSet "summaries" summariesValue (dictSet "extent" (extentValue spatial b0 b1) info2)

/-- The `CreateResult` of a successful `create_stac_collection` run whose pops
left `info2` and whose bounds parsed to `b0` and `b1`. -/
def builtResult (cid : String) (spatial : Value) (b0 b1 : Option (Nat × Nat × Nat))
    (info2 : List (String × Value)) : CreateResult :=
  ⟨builtInfo spatial b0 b1 info2, builtInfo spatial b0 b1 info2,
   collectionToDict cid (builtInfo spatial b0 b1 info2)⟩

/-- Following the spec's words, the strict `YYYY-MM-DD` shape: four digits,
a dash, two digits, a dash, two digits. -/
def strictYmdShape (s : String) : Bool :=
  match s.data with
  | [y1, y2, y3, y4, h1, m1, m2, h2, d1, d2] =>
    y1.isDigit && y2.isDigit && y3.isDigit && y4.isDigit && h1 == '-' &&
      m1.isDigit && m2.isDigit && h2 == '-' && d1.isDigit && d2.isDigit
  | _ => false

/-- An input descriptor that already carries an `extent` key (plus the
required `description`), exercising the overwrite performed by the builder. -/
def c6exampleInfo : List (String × Value) :=
  [("extent", .str "orig"), ("description", .str "d"), ("spatialextent", .arr []),
   ("temporalextent", .arr [.null, .null])]

/-- A character class: a list of inclusive character ranges, possibly
negated. -/
structure CharCls where
  ranges : List (Char × Char)
  negated : Bool

/-- Does the class accept the character. -/
def CharCls.accepts (cs : CharCls) (c : Char) : Bool :=
  (cs.ranges.any fun p => decide (p.1 ≤ c) && decide (c ≤ p.2)) != cs.negated

/-- Regular expressions over characters. -/
inductive RE where
  | fail
  | eps
  | cls (cs : CharCls)
  | cat (a b : RE)
  | alt (a b : RE)
  | star (a : RE)

/-- Smart concatenation (absorbs `fail`, drops `eps`). -/
def mkCat : RE → RE → RE
  | .fail, _ => .fail
  | _, .fail => .fail
  | .eps, b => b
  | a, .eps => a
  | a, b => .cat a b

/-- Smart alternation (drops `fail`). -/
def mkAlt : RE → RE → RE
  | .fail, b => b
  | a, .fail => a
  | a, b => .alt a b

/-- Can the expression match the empty string. -/
def RE.nullable : RE → Bool
  | .fail => false
  | .eps => true
  | .cls _ => false
  | .cat a b => a.nullable && b.nullable
  | .alt a b => a.nullable || b.nullable
  | .star _ => true

/-- Brzozowski derivative with respect to one character. -/
def RE.deriv : RE → Char → RE
  | .fail, _ => .fail
  | .eps, _ => .fail
  | .cls cs, c => if cs.accepts c then .eps else .fail
  | .cat a b, c =>
    if a.nullable then mkAlt (mkCat (a.deriv c) b) (b.deriv c)
    else mkCat (a.deriv c) b
  | .alt a b, c => mkAlt (a.deriv c) (b.deriv c)
  | .star a, c => mkCat (a.deriv c) (.star a)

/-- Whole-string match by iterated derivatives. -/
def reMatch (r : RE) (s : List Char) : Bool :=
  (s.foldl RE.deriv r).nullable

/-- Single-character expression. -/
def oneChar (c : Char) : RE := .cls ⟨[(c, c)], false⟩

/-- One literal character under `re.IGNORECASE`: both cases accepted. -/
def letterCI (c : Char) : RE :=
  .cls ⟨[(c.toLower, c.toLower), (c.toUpper, c.toUpper)], false⟩

/-- A literal string under `re.IGNORECASE`. -/
def litCI (s : String) : RE :=
  s.data.foldr (fun c r => .cat (letterCI c) r) .eps

/-- The regex `r?`. -/
def opt (r : RE) : RE := .alt .eps r

/-- The regex `r{0,n}`. -/
def upTo : Nat → RE → RE
  | 0, _ => .eps
  | n + 1, r => .alt .eps (.cat r (upTo n r))

/-- The regex `r+`. -/
def oneOrMore (r : RE) : RE := .cat r (.star r)

/-- `[A-Z]` under `re.IGNORECASE`. -/
def alphaCls : RE := .cls ⟨[('A', 'Z'), ('a', 'z')], false⟩

/-- `[A-Z\d]` under `re.IGNORECASE` (`\d` restricted to ASCII digits). -/
def alnumCls : RE := .cls ⟨[('A', 'Z'), ('a', 'z'), ('0', '9')], false⟩

/-- `[A-Z\d-]` under `re.IGNORECASE`. -/
def alnumHyphCls : RE := .cls ⟨[('A', 'Z'), ('a', 'z'), ('0', '9'), ('-', '-')], false⟩

/-- `\d` (restricted to ASCII digits). -/
def digitCls : RE := .cls ⟨[('0', '9')], false⟩

/-- The ranges Python's `\s` accepts (ASCII and Unicode whitespace). -/
def wsRanges : List (Char × Char) :=
  [(Char.ofNat 9, Char.ofNat 13), (Char.ofNat 28, Char.ofNat 31), (' ', ' '),
   (Char.ofNat 133, Char.ofNat 133), (Char.ofNat 160, Char.ofNat 160),
   (Char.ofNat 5760, Char.ofNat 5760), (Char.ofNat 8192, Char.ofNat 8202),
   (Char.ofNat 8232, Char.ofNat 8233), (Char.ofNat 8239, Char.ofNat 8239),
   (Char.ofNat 8287, Char.ofNat 8287), (Char.ofNat 12288, Char.ofNat 12288)]

/-- `\S`: any non-whitespace character. -/
def nonSpaceCls : RE := .cls ⟨wsRanges, true⟩

/-- `(?:http|ftp)s?://`. -/
def schemeRE : RE :=
  .cat (.alt (litCI "http") (litCI "ftp")) (.cat (opt (letterCI 's')) (litCI "://"))

/-- One domain label `[A-Z\d](?:[A-Z\d-]{0,61}[A-Z\d])?\.`. -/
def labelRE : RE :=
  .cat alnumCls (.cat (opt (.cat (upTo 61 alnumHyphCls) alnumCls)) (oneChar '.'))

/-- The TLD-like tail `(?:[A-Z]{2,6}\.?|[A-Z\d-]{2,}\.?)`. -/
def tldRE : RE :=
  .alt (.cat (.cat alphaCls (.cat alphaCls (upTo 4 alphaCls))) (opt (oneChar '.')))
    (.cat (.cat alnumHyphCls (oneOrMore alnumHyphCls)) (opt (oneChar '.')))

/-- The domain alternative `(?:[A-Z\d](?:[A-Z\d-]{0,61}[A-Z\d])?\.)+(?:...)`. -/
def domainRE : RE := .cat (oneOrMore labelRE) tldRE

/-- A 1-3 digit group of the dotted quad (`\d{1,3}`, range not checked). -/
def octetRE : RE := .cat digitCls (upTo 2 digitCls)

/-- The dotted-quad alternative `\d{1,3}\.\d{1,3}\.\d{1,3}\.\d{1,3}`. -/
def ipRE : RE :=
  .cat octetRE (.cat (oneChar '.') (.cat octetRE (.cat (oneChar '.')
    (.cat octetRE (.cat (oneChar '.') octetRE)))))

/-- `(?:domain|localhost|ip)`. -/
def hostRE : RE := .alt domainRE (.alt (litCI "localhost") ipRE)

/-- `(?::\d+)?`. -/
def portRE : RE := opt (.cat (oneChar ':') (oneOrMore digitCls))

/-- `(?:/?|[/?]\S+)`. -/
def pathRE : RE :=
  .alt (opt (oneChar '/'))
    (.cat (.cls ⟨[('/', '/'), ('?', '?')], false⟩) (oneOrMore nonSpaceCls))

/-- The `$`-free body of `url_regex` from the source, under `re.IGNORECASE`. -/
def urlRegexCore : RE := .cat schemeRE (.cat hostRE (.cat portRE pathRE))

/-- `re.match(p, s)` as a boolean for a pattern `p` that ends in `$` (no
MULTILINE flag): Python's `$` matches at the end of the string or just before
one trailing newline, so the match succeeds iff the `$`-free body matches the
whole string or the whole string minus a single final newline. -/
def pyMatchDollar (r : RE) (s : List Char) : Bool :=
  reMatch r s ||
    (match s.getLast? with
     | some c => c == '\n' && reMatch r s.dropLast
     | none => false)

/-- `url_validate(target)`: compile `url_regex` with `re.IGNORECASE` and test
`re.match` against the target. Total and pure: it returns a boolean, never
raises and performs no network I/O. -/
def url_validate (target : String) : Bool :=
  pyMatchDollar urlRegexCore target.data

/-- Following the spec's words: a full-string match of the URL pattern,
anchored at both ends, with no trailing-newline allowance. -/
def specUrlFullMatch (target : String) : Bool :=
  reMatch urlRegexCore target.data

theorem raisesForStatus_iff (code : Nat) :
    raisesForStatus code = true ↔ 400 ≤ code ∧ code < 600 := by
  simp [raisesForStatus]

/-- C3: `stac_collection_exists` returns `true` if and only if the GET
request for `{host}/collections/{id}` answers with status exactly 200; every
other status yields `false`. -/
theorem c3_collection_exists_iff_200 (server : List Char → Nat)
    (stacHost collectionId : List Char) :
    stac_collection_exists server stacHost collectionId = true ↔
      server (collectionItemUrl stacHost collectionId) = 200 := by
  simp [stac_collection_exists]

/-- C9: `stac_host_reachable` returns `true` exactly when the GET produced a
status code outside the 4xx/5xx error range; every transport-level failure
and every 4xx/5xx status yields `false`. The function is total, so it never
raises to the caller. -/
theorem c9_host_reachable_iff (resp : HttpResp) :
    stac_host_reachable resp = true ↔
      ∃ code, resp = .ok code ∧ ¬ (400 ≤ code ∧ code < 600) := by
  cases resp with
  | error e =>
    constructor
    · intro h; simp [stac_host_reachable] at h
    · rintro ⟨code, hcode, -⟩; cases hcode
  | ok code =>
    simp only [stac_host_reachable, Bool.not_eq_eq_eq_not, Bool.not_true,
      Bool.not_eq_true]
    constructor
    · intro h
      refine ⟨code, rfl, fun hc => ?_⟩
      rw [(raisesForStatus_iff code).2 hc] at h
      cases h
    · rintro ⟨c, hc, hnot⟩
      cases hc
      cases hraise : raisesForStatus code with
      | false => rfl
      | true => exact absurd ((raisesForStatus_iff code).1 hraise) hnot

/-- C10: the request URL is built by `os.path.join`; when the collection id
begins with `/` the join yields the id alone (the host prefix is discarded,
so the request is not sent to `{host}/collections/{id}`), and when the id
does not begin with `/` (and the host is nonempty without trailing slash) the
URL is exactly `{host}/collections/{id}`. -/
theorem c10_path_join_absolute_id (stacHost collectionId : List Char) :
    (startsWithSlash collectionId = true →
      collectionItemUrl stacHost collectionId = collectionId ∧
      collectionItemUrl stacHost collectionId ≠
        stacHost ++ '/' :: "collections".data ++ '/' :: collectionId) ∧
    (startsWithSlash collectionId = false → stacHost ≠ [] →
      endsWithSlash stacHost = false →
      collectionItemUrl stacHost collectionId =
        stacHost ++ '/' :: "collections".data ++ '/' :: collectionId) := by
  constructor
  · intro habs
    have heq : collectionItemUrl stacHost collectionId = collectionId := by
      unfold collectionItemUrl osPathJoin
      rw [if_pos habs]
    refine ⟨heq, ?_⟩
    intro hcontra
    rw [heq] at hcontra
    have hlen := congrArg List.length hcontra
    simp at hlen
    omega
  · intro hrel hne hslash
    have hinner : osPathJoin stacHost "collections".data =
        stacHost ++ '/' :: "collections".data := by
      unfold osPathJoin
      rw [if_neg (by decide), if_neg (by simp [hne, hslash])]
    have hlast : endsWithSlash (stacHost ++ '/' :: "collections".data) = false := by
      unfold endsWithSlash
      rw [List.getLast?_append_cons]
      decide
    unfold collectionItemUrl
    rw [hinner]
    unfold osPathJoin
    rw [if_neg (by simp [hrel]), if_neg (by simp [hlast])]

/-- C10 witness: at `host = "http://h"`, the id `"/abs"` is returned alone by
the join, and the id `"c1"` produces `http://h/collections/c1`. -/
theorem c10_path_join_absolute_id_witness :
    collectionItemUrl "http://h".data "/abs".data = "/abs".data ∧
    collectionItemUrl "http://h".data "c1".data = "http://h/collections/c1".data := by
  refine ⟨((c10_path_join_absolute_id "http://h".data "/abs".data).1 (by decide)).1, ?_⟩
  have h := (c10_path_join_absolute_id "http://h".data "c1".data).2
    (by decide) (by decide) (by decide)
  rw [h]
  decide

/-- C1 counterexample: after a POST answered 409, a PUT answered 301 (a
non-2xx status) is NOT surfaced as an `HTTPError`: `raise_for_status` only
raises for 4xx/5xx, so the call returns normally. -/
theorem c1_counterexample :
    (post_stac_collection 409 301 "http://host".data [("id", .str "c1")]).outcome
        = .ok () ∧
    ¬ (200 ≤ 301 ∧ 301 < 300) := by
  constructor
  · rfl
  · omega

/-- C1 (amended): when the POST returns 409 the function logs a warning and
issues a PUT to `{host}/collections` with the same body (exactly two requests
in total); the call fails with an `HTTPError` carrying the PUT status iff
that status is in the 4xx/5xx range, and returns normally otherwise. -/
theorem c1_upsert_on_conflict (putStatus : Nat) (stacHost : List Char)
    (jsonData : List (String × Value)) (v : Value)
    (hid : dictGet "id" jsonData = some v) :
    (post_stac_collection 409 putStatus stacHost jsonData).warned = true ∧
    (post_stac_collection 409 putStatus stacHost jsonData).requests =
      [⟨.post, collectionsUrl stacHost, jsonData⟩,
       ⟨.put, collectionsUrl stacHost, jsonData⟩] ∧
    (post_stac_collection 409 putStatus stacHost jsonData).requests.length ≤ 2 ∧
    ((post_stac_collection 409 putStatus stacHost jsonData).outcome =
        .error (.http ⟨putStatus⟩) ↔ 400 ≤ putStatus ∧ putStatus < 600) ∧
    (¬ (400 ≤ putStatus ∧ putStatus < 600) →
      (post_stac_collection 409 putStatus stacHost jsonData).outcome = .ok ()) := by
  unfold post_stac_collection
  rw [hid]
  simp only [if_neg (by decide : ¬ (409 : Nat) = 200), if_pos rfl]
  cases hraise : raisesForStatus putStatus with
  | true =>
    have hrange := (raisesForStatus_iff putStatus).1 hraise
    simp [hrange]
  | false =>
    have hrange : ¬ (400 ≤ putStatus ∧ putStatus < 600) := fun hc =>
      by rw [(raisesForStatus_iff putStatus).2 hc] at hraise; cases hraise
    simp [hrange]

/-- C1 witness: with the POST answered 409 and the PUT answered 500 on a
concrete host and body, the warning is logged, the POST and the PUT are the
only two requests, and the `HTTPError` for status 500 is raised. -/
theorem c1_upsert_on_conflict_witness :
    (post_stac_collection 409 500 "http://host".data [("id", .str "c1")]).warned
        = true ∧
    (post_stac_collection 409 500 "http://host".data [("id", .str "c1")]).outcome
        = .error (.http ⟨500⟩) := by
  have h := c1_upsert_on_conflict 500 "http://host".data [("id", .str "c1")]
    (.str "c1") rfl
  exact ⟨h.1, (h.2.2.2.1).2 (by omega)⟩

/-- C2 counterexample: a POST answered 201 (neither 200 nor 409) does NOT
raise: `raise_for_status` only raises for 4xx/5xx, so the call returns
normally after the single POST. -/
theorem c2_counterexample :
    (post_stac_collection 201 0 "http://host".data [("id", .str "c1")]).outcome
        = .ok () ∧
    (post_stac_collection 201 0 "http://host".data [("id", .str "c1")]).requests.length
        = 1 := by
  exact ⟨rfl, rfl⟩

/-- C2 (amended): when the POST returns a status other than 200 and 409, no
further request is issued and the call fails with an `HTTPError` carrying
that status iff it lies in the 4xx/5xx range; statuses outside that range
(such as 201, 204 or 301) return normally. -/
theorem c2_post_other_status (postStatus putStatus : Nat) (stacHost : List Char)
    (jsonData : List (String × Value)) (v : Value)
    (hid : dictGet "id" jsonData = some v)
    (h200 : postStatus ≠ 200) (h409 : postStatus ≠ 409) :
    (post_stac_collection postStatus putStatus stacHost jsonData).requests =
      [⟨.post, collectionsUrl stacHost, jsonData⟩] ∧
    ((post_stac_collection postStatus putStatus stacHost jsonData).outcome =
        .error (.http ⟨postStatus⟩) ↔ 400 ≤ postStatus ∧ postStatus < 600) ∧
    (¬ (400 ≤ postStatus ∧ postStatus < 600) →
      (post_stac_collection postStatus putStatus stacHost jsonData).outcome
        = .ok ()) := by
  unfold post_stac_collection
  rw [hid]
  simp only [if_neg h200, if_neg h409]
  cases hraise : raisesForStatus postStatus with
  | true =>
    have hrange := (raisesForStatus_iff postStatus).1 hraise
    simp [hrange]
  | false =>
    have hrange : ¬ (400 ≤ postStatus ∧ postStatus < 600) := fun hc =>
      by rw [(raisesForStatus_iff postStatus).2 hc] at hraise; cases hraise
    simp [hrange]

/-- C2 witness: a POST answered 500 on a concrete host and body raises the
`HTTPError` for status 500 after a single request. -/
theorem c2_post_other_status_witness :
    (post_stac_collection 500 0 "http://host".data [("id", .str "c1")]).outcome
        = .error (.http ⟨500⟩) := by
  exact (c2_post_other_status 500 0 "http://host".data [("id", .str "c1")]
    (.str "c1") rfl (by omega) (by omega)).2.1.2 (by omega)

theorem dictGet_dictSet_self (k : String) (v : Value) (m : List (String × Value)) :
    dictGet k (dictSet k v m) = some v := by
  induction m with
  | nil => simp [dictSet, dictGet]
  | cons h t ih =>
    obtain ⟨k1, v1⟩ := h
    by_cases hk : k1 = k <;> simp [dictSet, dictGet, hk, ih]

theorem dictGet_dictSet_ne (k1 k : String) (v : Value) (m : List (String × Value))
    (hne : k1 ≠ k) :
    dictGet k (dictSet k1 v m) = dictGet k m := by
  induction m with
  | nil => simp [dictSet, dictGet, hne]
  | cons h t ih =>
    obtain ⟨k2, v2⟩ := h
    by_cases hk : k2 = k1 <;> simp [dictSet, dictGet, hk, hne, ih]

theorem dictGet_dictRemove_ne (k1 k : String) (m : List (String × Value))
    (hne : k1 ≠ k) :
    dictGet k (dictRemove k1 m) = dictGet k m := by
  induction m with
  | nil => simp [dictRemove, dictGet]
  | cons h t ih =>
    obtain ⟨k2, v2⟩ := h
    by_cases hk : k2 = k1
    · subst hk
      simp [dictRemove, dictGet, hne]
    · simp [dictRemove, dictGet, hk, ih]

theorem dictGet_eq_none_of_not_mem (k : String) (m : List (String × Value))
    (h : k ∉ keys m) :
    dictGet k m = none := by
  induction m with
  | nil => rfl
  | cons p t ih =>
    obtain ⟨k1, v1⟩ := p
    have hck : keys ((k1, v1) :: t) = k1 :: keys t := rfl
    rw [hck, List.mem_cons, not_or] at h
    have h1 : ¬ k1 = k := fun he => h.1 he.symm
    simp [dictGet, h1, ih h.2]

theorem keys_dictRemove_sublist (k : String) (m : List (String × Value)) :
    List.Sublist (keys (dictRemove k m)) (keys m) := by
  induction m with
  | nil => simp [dictRemove, keys]
  | cons p t ih =>
    obtain ⟨k1, v1⟩ := p
    by_cases hk : k1 = k
    · simp only [dictRemove, if_pos hk, keys, List.map_cons]
      exact (List.Sublist.refl _).cons _
    · simp only [dictRemove, if_neg hk, keys, List.map_cons]
      exact ih.cons₂ _

theorem dictGet_dictRemove_self (k : String) (m : List (String × Value))
    (h : (keys m).Nodup) :
    dictGet k (dictRemove k m) = none := by
  induction m with
  | nil => rfl
  | cons p t ih =>
    obtain ⟨k1, v1⟩ := p
    simp only [keys, List.map_cons, List.nodup_cons] at h
    by_cases hk : k1 = k
    · subst hk
      simp only [dictRemove, if_pos rfl]
      exact dictGet_eq_none_of_not_mem _ _ h.1
    · simp [dictRemove, dictGet, hk, ih h.2]

theorem dictPop_eq_some (k : String) (m m1 : List (String × Value)) (v : Value)
    (h : dictPop k m = some (v, m1)) :
    dictGet k m = some v ∧ m1 = dictRemove k m := by
  unfold dictPop at h
  cases hg : dictGet k m with
  | none => rw [hg] at h; cases h
  | some w =>
    rw [hg] at h
    injection h with h1
    injection h1 with hv hm
    exact ⟨by rw [hv], hm.symm⟩

theorem mem_keys_dictSet (kset k : String) (v : Value) (m : List (String × Value))
    (h : k ∈ keys (dictSet kset v m)) : k = kset ∨ k ∈ keys m := by
  induction m with
  | nil =>
    simp [dictSet, keys] at h
    exact Or.inl h
  | cons p t ih =>
    obtain ⟨k2, v2⟩ := p
    by_cases hk : k2 = kset
    · rw [show dictSet kset v ((k2, v2) :: t) = (kset, v) :: t from by
        simp [dictSet, hk]] at h
      simp only [keys, List.map_cons, List.mem_cons] at h ⊢
      rcases h with h1 | h1
      · exact Or.inl h1
      · exact Or.inr (Or.inr h1)
    · rw [show dictSet kset v ((k2, v2) :: t) = (k2, v2) :: dictSet kset v t from by
        simp [dictSet, hk]] at h
      simp only [keys, List.map_cons, List.mem_cons] at h ⊢
      rcases h with h1 | h1
      · exact Or.inr (Or.inl h1)
      · rcases ih h1 with h2 | h2
        · exact Or.inl h2
        · exact Or.inr (Or.inr h2)

theorem create_eq_ok (cid : String) (info info1 info2 : List (String × Value))
    (spatial t0 t1 : Value) (rest : List Value) (b0 b1 : Option (Nat × Nat × Nat))
    (hpop1 : dictPop "spatialextent" info = some (spatial, info1))
    (hpop2 : dictPop "temporalextent" info1 = some (.arr (t0 :: t1 :: rest), info2))
    (hb0 : parseBound t0 = .ok b0) (hb1 : parseBound t1 = .ok b1)
    (hchk : pystacCollectionCheck (builtInfo spatial b0 b1 info2) = true) :
    create_stac_collection cid info = .ok (builtResult cid spatial b0 b1 info2) := by
  have h : create_stac_collection cid info =
      if pystacCollectionCheck (builtInfo spatial b0 b1 info2) then
        .ok (builtResult cid spatial b0 b1 info2)
      else .error .typeError := by
    simp only [create_stac_collection, hpop1, hpop2, List.get?_cons_zero,
      List.get?_cons_succ, hb0, hb1]
    rfl
  rw [h, if_pos hchk]

theorem dictGet_builtInfo_extent (spatial : Value) (b0 b1 : Option (Nat × Nat × Nat))
    (info2 : List (String × Value)) :
    dictGet "extent" (builtInfo spatial b0 b1 info2) = some (extentValue spatial b0 b1) := by
  unfold builtInfo
  rw [dictGet_dictSet_ne _ _ _ _ (by decide), dictGet_dictSet_self]

theorem dictGet_builtInfo_summaries (spatial : Value) (b0 b1 : Option (Nat × Nat × Nat))
    (info2 : List (String × Value)) :
    dictGet "summaries" (builtInfo spatial b0 b1 info2) = some summariesValue := by
  unfold builtInfo
  rw [dictGet_dictSet_self]

theorem dictGet_builtInfo_other (k : String) (spatial : Value)
    (b0 b1 : Option (Nat × Nat × Nat)) (info2 : List (String × Value))
    (hk1 : k ≠ "extent") (hk2 : k ≠ "summaries") :
    dictGet k (builtInfo spatial b0 b1 info2) = dictGet k info2 := by
  unfold builtInfo
  rw [dictGet_dictSet_ne _ _ _ _ (Ne.symm hk2), dictGet_dictSet_ne _ _ _ _ (Ne.symm hk1)]

theorem pystacCollectionCheck_builtInfo (spatial : Value)
    (b0 b1 : Option (Nat × Nat × Nat)) (info2 : List (String × Value))
    (hdesc : (dictGet "description" info2).isSome = true)
    (hkeys : ∀ k ∈ keys info2, collectionKwargNames.contains k = true) :
    pystacCollectionCheck (builtInfo spatial b0 b1 info2) = true := by
  unfold pystacCollectionCheck
  rw [Bool.and_eq_true, List.all_eq_true]
  constructor
  · rw [dictGet_builtInfo_other _ _ _ _ _ (by decide) (by decide)]
    exact hdesc
  · intro k hk
    unfold builtInfo at hk
    rcases mem_keys_dictSet _ _ _ _ hk with h1 | h1
    · subst h1
      decide
    · rcases mem_keys_dictSet _ _ _ _ h1 with h2 | h2
      · subst h2
        decide
      · exact hkeys k h2

/-- C4: for every collection id and every descriptor whose `spatialextent` is
the world bbox, whose `temporalextent` is `["2000-01-01", "2020-12-31"]` and
which carries the required STAC Collection fields (a `description`, and only
fields the Collection constructor accepts), the builder succeeds and the
document it returns
has `extent.spatial.bbox = [[-180,-90,180,90]]` (the single bbox wrapped in a
list), `extent.temporal.interval` equal to the single pair of parsed
datetimes, a `summaries` entry under `needs_summaries_update`, and `id` equal
to the id passed in. -/
theorem c4_create_collection_world (cid : String)
    (info info1 info2 : List (String × Value)) (rest : List Value)
    (hpop1 : dictPop "spatialextent" info = some (worldBbox, info1))
    (hpop2 : dictPop "temporalextent" info1 =
      some (.arr (Value.str "2000-01-01" :: Value.str "2020-12-31" :: rest), info2))
    (hdesc : (dictGet "description" info2).isSome = true)
    (hkeys : ∀ k ∈ keys info2, collectionKwargNames.contains k = true) :
    create_stac_collection cid info =
      .ok (builtResult cid worldBbox (some (2000, 1, 1)) (some (2020, 12, 31)) info2) ∧
    getAt (builtResult cid worldBbox (some (2000, 1, 1)) (some (2020, 12, 31)) info2).doc
      ["id"] = some (.str cid) ∧
    getAt (builtResult cid worldBbox (some (2000, 1, 1)) (some (2020, 12, 31)) info2).doc
      ["extent", "spatial", "bbox"] = some (.arr [worldBbox]) ∧
    getAt (builtResult cid worldBbox (some (2000, 1, 1)) (some (2020, 12, 31)) info2).doc
      ["extent", "temporal", "interval"]
      = some (.arr [.arr [.date 2000 1 1, .date 2020 12 31]]) ∧
    getAt (builtResult cid worldBbox (some (2000, 1, 1)) (some (2020, 12, 31)) info2).doc
      ["summaries", "needs_summaries_update"] = some (.arr [.str "true"]) := by
  have hdoc : (builtResult cid worldBbox (some (2000, 1, 1)) (some (2020, 12, 31)) info2).doc
      = .obj (("type", .str "Collection") :: ("id", .str cid) ::
          builtInfo worldBbox (some (2000, 1, 1)) (some (2020, 12, 31)) info2) := rfl
  refine ⟨create_eq_ok cid info info1 info2 worldBbox _ _ rest _ _ hpop1 hpop2 rfl rfl
    (pystacCollectionCheck_builtInfo _ _ _ _ hdesc hkeys),
    ?_, ?_, ?_, ?_⟩ <;> rw [hdoc]
  · simp [getAt, dictGet]
  · simp [getAt, dictGet, dictGet_builtInfo_extent, extentValue]
  · simp [getAt, dictGet, dictGet_builtInfo_extent, extentValue, boundValue]
  · simp [getAt, dictGet, dictGet_builtInfo_summaries, summariesValue]

/-- C4 witness: a concrete descriptor with the world bbox, the concrete
temporal extent and two pass-through fields produces the expected document
with `id = "c1"`. -/
theorem c4_create_collection_world_witness :
    create_stac_collection "c1"
      [("spatialextent", worldBbox),
       ("temporalextent", .arr [.str "2000-01-01", .str "2020-12-31"]),
       ("description", .str "d"), ("license", .str "proprietary")]
      = .ok (builtResult "c1" worldBbox (some (2000, 1, 1)) (some (2020, 12, 31))
          [("description", .str "d"), ("license", .str "proprietary")]) ∧
    getAt (builtResult "c1" worldBbox (some (2000, 1, 1)) (some (2020, 12, 31))
        [("description", .str "d"), ("license", .str "proprietary")]).doc ["id"]
      = some (.str "c1") := by
  have h := c4_create_collection_world "c1"
    [("spatialextent", worldBbox),
     ("temporalextent", .arr [.str "2000-01-01", .str "2020-12-31"]),
     ("description", .str "d"), ("license", .str "proprietary")]
    [("temporalextent", .arr [.str "2000-01-01", .str "2020-12-31"]),
     ("description", .str "d"), ("license", .str "proprietary")]
    [("description", .str "d"), ("license", .str "proprietary")]
    [] rfl rfl rfl (by decide)
  exact ⟨h.1, h.2.1⟩

/-- C5 counterexample: an EMPTY-string temporal bound is not passed through
as an open-ended side: `"" is not None`, so the code calls
`datetime.strptime("", "%Y-%m-%d")`, which raises `ValueError`; the builder
propagates the error instead of returning a document. -/
theorem c5_counterexample :
    strptimeYmd "" = none ∧
    create_stac_collection "c"
      [("spatialextent", .arr []), ("temporalextent", .arr [.str "", .null])]
      = .error .valueError :=
  ⟨rfl, rfl⟩

/-- C5 (amended): on a descriptor carrying the required Collection
constructor fields, a `None` temporal bound on either side is passed through
as an open-ended interval side, preserved as `null` in the document and not
coerced to a date, with no error raised; an empty-string bound, by contrast,
raises a parsing error. -/
theorem c5_null_bound (cid : String) (info info1 info2 : List (String × Value))
    (spatial t : Value) (b : Option (Nat × Nat × Nat)) (rest : List Value)
    (hpop1 : dictPop "spatialextent" info = some (spatial, info1))
    (hdesc : (dictGet "description" info2).isSome = true)
    (hkeys : ∀ k ∈ keys info2, collectionKwargNames.contains k = true) :
    (dictPop "temporalextent" info1 = some (.arr (Value.null :: t :: rest), info2) →
      parseBound t = .ok b →
      create_stac_collection cid info = .ok (builtResult cid spatial none b info2) ∧
      getAt (builtResult cid spatial none b info2).doc ["extent", "temporal", "interval"]
        = some (.arr [.arr [Value.null, boundValue b]])) ∧
    (dictPop "temporalextent" info1 = some (.arr (t :: Value.null :: rest), info2) →
      parseBound t = .ok b →
      create_stac_collection cid info = .ok (builtResult cid spatial b none info2) ∧
      getAt (builtResult cid spatial b none info2).doc ["extent", "temporal", "interval"]
        = some (.arr [.arr [boundValue b, Value.null]])) := by
  constructor
  · intro hpop2 hb
    refine ⟨create_eq_ok cid info info1 info2 spatial _ _ rest _ _ hpop1 hpop2 rfl hb
      (pystacCollectionCheck_builtInfo _ _ _ _ hdesc hkeys), ?_⟩
    have hdoc : (builtResult cid spatial none b info2).doc
        = .obj (("type", .str "Collection") :: ("id", .str cid) ::
            builtInfo spatial none b info2) := rfl
    rw [hdoc]
    simp [getAt, dictGet, dictGet_builtInfo_extent, extentValue, boundValue]
  · intro hpop2 hb
    refine ⟨create_eq_ok cid info info1 info2 spatial _ _ rest _ _ hpop1 hpop2 hb rfl
      (pystacCollectionCheck_builtInfo _ _ _ _ hdesc hkeys), ?_⟩
    have hdoc : (builtResult cid spatial b none info2).doc
        = .obj (("type", .str "Collection") :: ("id", .str cid) ::
            builtInfo spatial b none info2) := rfl
    rw [hdoc]
    simp [getAt, dictGet, dictGet_builtInfo_extent, extentValue, boundValue]

/-- C5 witness: with `temporalextent = [None, "2020-12-31"]` the builder
succeeds and the document's interval is `[null, 2020-12-31]`. -/
theorem c5_null_bound_witness :
    create_stac_collection "c"
      [("spatialextent", .arr []), ("temporalextent", .arr [.null, .str "2020-12-31"]),
       ("description", .str "d")]
      = .ok (builtResult "c" (.arr []) none (some (2020, 12, 31))
          [("description", .str "d")]) ∧
    getAt (builtResult "c" (.arr []) none (some (2020, 12, 31))
        [("description", .str "d")]).doc
      ["extent", "temporal", "interval"]
      = some (.arr [.arr [Value.null, Value.date 2020 12 31]]) := by
  have h := (c5_null_bound "c"
    [("spatialextent", .arr []), ("temporalextent", .arr [.null, .str "2020-12-31"]),
     ("description", .str "d")]
    [("temporalextent", .arr [.null, .str "2020-12-31"]), ("description", .str "d")]
    [("description", .str "d")]
    (.arr []) (.str "2020-12-31") (some (2020, 12, 31)) [] rfl rfl (by decide)).1 rfl rfl
  exact ⟨h.1, h.2⟩

/-- C6 counterexample: on an input that already carries an `extent` key, that
key remains in the mapping but is NOT forwarded as-is: the builder overwrites
it with the computed extent object before calling the constructor. -/
theorem c6_counterexample :
    dictGet "extent" c6exampleInfo = some (.str "orig") ∧
    create_stac_collection "c" c6exampleInfo
      = .ok (builtResult "c" (.arr []) none none
          [("extent", .str "orig"), ("description", .str "d")]) ∧
    dictGet "extent" (builtResult "c" (.arr []) none none
        [("extent", .str "orig"), ("description", .str "d")]).forwarded
      = some (extentValue (.arr []) none none) ∧
    extentValue (.arr []) none none ≠ Value.str "orig" := by
  refine ⟨rfl, rfl, rfl, ?_⟩
  intro h
  exact Value.noConfusion h

/-- C6 (amended): the builder destructively removes exactly the keys
`spatialextent` and `temporalextent` from the caller's mapping; every
remaining key other than `extent` and `summaries` is forwarded as-is to the
Collection constructor with its original value, while `extent` and
`summaries` are set to the computed extent and the placeholder summaries
(overwriting any value the input held under those keys); the forwarded dict
is the caller's mutated mapping itself. Stated for descriptors the Collection
constructor accepts (a description present, every remaining key a
constructor parameter). -/
theorem c6_frame (cid : String) (info info1 info2 : List (String × Value))
    (spatial t0 t1 : Value) (rest : List Value) (b0 b1 : Option (Nat × Nat × Nat))
    (hnodup : (keys info).Nodup)
    (hpop1 : dictPop "spatialextent" info = some (spatial, info1))
    (hpop2 : dictPop "temporalextent" info1 = some (.arr (t0 :: t1 :: rest), info2))
    (hb0 : parseBound t0 = .ok b0) (hb1 : parseBound t1 = .ok b1)
    (hdesc : (dictGet "description" info2).isSome = true)
    (hkeys : ∀ k ∈ keys info2, collectionKwargNames.contains k = true) :
    create_stac_collection cid info = .ok (builtResult cid spatial b0 b1 info2) ∧
    (builtResult cid spatial b0 b1 info2).forwarded
      = (builtResult cid spatial b0 b1 info2).mutatedInfo ∧
    dictGet "spatialextent" (builtResult cid spatial b0 b1 info2).forwarded = none ∧
    dictGet "temporalextent" (builtResult cid spatial b0 b1 info2).forwarded = none ∧
    (∀ k, k ≠ "spatialextent" → k ≠ "temporalextent" → k ≠ "extent" → k ≠ "summaries" →
      dictGet k (builtResult cid spatial b0 b1 info2).forwarded = dictGet k info) ∧
    dictGet "extent" (builtResult cid spatial b0 b1 info2).forwarded
      = some (extentValue spatial b0 b1) ∧
    dictGet "summaries" (builtResult cid spatial b0 b1 info2).forwarded
      = some summariesValue := by
  obtain ⟨hget1, hrem1⟩ := dictPop_eq_some _ _ _ _ hpop1
  obtain ⟨hget2, hrem2⟩ := dictPop_eq_some _ _ _ _ hpop2
  have hfwd : (builtResult cid spatial b0 b1 info2).forwarded
      = builtInfo spatial b0 b1 info2 := rfl
  have hnodup1 : (keys info1).Nodup := by
    rw [hrem1]
    exact (keys_dictRemove_sublist _ _).nodup hnodup
  refine ⟨create_eq_ok cid info info1 info2 spatial _ _ rest _ _ hpop1 hpop2 hb0 hb1
    (pystacCollectionCheck_builtInfo _ _ _ _ hdesc hkeys),
    rfl, ?_, ?_, ?_, ?_, ?_⟩
  · rw [hfwd, dictGet_builtInfo_other _ _ _ _ _ (by decide) (by decide), hrem2,
      dictGet_dictRemove_ne _ _ _ (by decide), hrem1, dictGet_dictRemove_self _ _ hnodup]
  · rw [hfwd, dictGet_builtInfo_other _ _ _ _ _ (by decide) (by decide), hrem2,
      dictGet_dictRemove_self _ _ hnodup1]
  · intro k hk1 hk2 hk3 hk4
    rw [hfwd, dictGet_builtInfo_other _ _ _ _ _ hk3 hk4, hrem2,
      dictGet_dictRemove_ne _ _ _ (Ne.symm hk2), hrem1,
      dictGet_dictRemove_ne _ _ _ (Ne.symm hk1)]
  · rw [hfwd, dictGet_builtInfo_extent]
  · rw [hfwd, dictGet_builtInfo_summaries]

/-- C6 witness: on a concrete descriptor with a `title` pass-through field,
`title` is forwarded unchanged and `spatialextent` is gone. -/
theorem c6_frame_witness :
    dictGet "title" (builtResult "c" (.arr []) none none
        [("title", .str "T"), ("description", .str "D")]).forwarded
      = dictGet "title" [("title", .str "T"), ("description", .str "D"),
          ("spatialextent", .arr []), ("temporalextent", .arr [.null, .null])] ∧
    dictGet "spatialextent" (builtResult "c" (.arr []) none none
        [("title", .str "T"), ("description", .str "D")]).forwarded = none := by
  have h := c6_frame "c"
    [("title", .str "T"), ("description", .str "D"), ("spatialextent", .arr []),
     ("temporalextent", .arr [.null, .null])]
    [("title", .str "T"), ("description", .str "D"),
     ("temporalextent", .arr [.null, .null])]
    [("title", .str "T"), ("description", .str "D")]
    (.arr []) .null .null [] none none (by decide) rfl rfl rfl rfl rfl (by decide)
  exact ⟨h.2.2.2.2.1 "title" (by decide) (by decide) (by decide) (by decide), h.2.2.1⟩

/-- C8 counterexample: `"2000-1-1"` does not have the strict `YYYY-MM-DD`
shape, yet `strptime` with format `%Y-%m-%d` accepts unpadded month and day,
so the builder succeeds instead of propagating a parsing error. -/
theorem c8_counterexample :
    strictYmdShape "2000-1-1" = false ∧
    strptimeYmd "2000-1-1" = some (2000, 1, 1) ∧
    create_stac_collection "c"
      [("spatialextent", .arr []), ("temporalextent", .arr [.str "2000-1-1", .null]),
       ("description", .str "d")]
      = .ok (builtResult "c" (.arr []) (some (2000, 1, 1)) none
          [("description", .str "d")]) :=
  ⟨rfl, rfl, rfl⟩

/-- C8 (amended): a non-null temporal bound string rejected by the
`%Y-%m-%d` parser (which demands a four-digit year, a calendar-valid date and
no leftover text, but tolerates unpadded month and day) makes the builder
propagate a `ValueError`-like parsing error, whichever side it is on. -/
theorem c8_bad_date_propagates (cid : String)
    (info info1 info2 : List (String × Value)) (spatial t0 : Value)
    (b0 : Option (Nat × Nat × Nat)) (s : String) (rest : List Value)
    (hpop1 : dictPop "spatialextent" info = some (spatial, info1)) :
    (dictPop "temporalextent" info1 = some (.arr (Value.str s :: rest), info2) →
      strptimeYmd s = none →
      create_stac_collection cid info = .error .valueError) ∧
    (dictPop "temporalextent" info1 = some (.arr (t0 :: Value.str s :: rest), info2) →
      parseBound t0 = .ok b0 → strptimeYmd s = none →
      create_stac_collection cid info = .error .valueError) := by
  constructor
  · intro hpop2 hs
    simp only [create_stac_collection, hpop1, hpop2, List.get?_cons_zero, parseBound, hs]
  · intro hpop2 hpb hs
    simp only [create_stac_collection, hpop1, hpop2, List.get?_cons_zero,
      List.get?_cons_succ, hpb]
    simp only [parseBound, hs]

/-- C8 witness: the unparsable bound `"not-a-date"` makes the builder fail
with the parsing error, on either side of the interval. -/
theorem c8_bad_date_propagates_witness :
    create_stac_collection "c"
      [("spatialextent", .arr []), ("temporalextent", .arr [.str "not-a-date", .null])]
      = .error .valueError := by
  exact (c8_bad_date_propagates "c"
    [("spatialextent", .arr []), ("temporalextent", .arr [.str "not-a-date", .null])]
    [("temporalextent", .arr [.str "not-a-date", .null])] []
    (.arr []) .null none "not-a-date" [.null] rfl).1 rfl rfl

/-- C7 counterexample: `url_validate` does not accept exactly the full-string
matches of the pattern: `"https://example.com\n"` is not a full-string match
(no part of the pattern can consume the newline), yet `re.match` succeeds
because `$` also matches just before a single trailing newline. -/
theorem c7_counterexample :
    url_validate "https://example.com\n" = true ∧
    specUrlFullMatch "https://example.com\n" = false := by
  constructor <;> decide

/-- C7 (amended): `url_validate` is a total, pure boolean function (no
exception, no network I/O); it accepts a string iff the URL pattern — scheme
`http`/`https`/`ftp`/`ftps`, then a dot-separated domain, literal
`localhost`, or a dotted quad of 1-3 digit groups (octet range unchecked),
then an optional `:port` and optional path/query — matches the full string
OR the full string minus one trailing newline (Python `$` semantics).
Concretely it accepts `https://example.com`, `ftp://localhost:21/path` and
`https://999.999.999.999`, and rejects `not a url`. -/
theorem c7_url_validate :
    (∀ s : String, url_validate s =
      (specUrlFullMatch s ||
        (match s.data.getLast? with
         | some c => c == '\n' && reMatch urlRegexCore s.data.dropLast
         | none => false))) ∧
    url_validate "https://example.com" = true ∧
    url_validate "ftp://localhost:21/path" = true ∧
    url_validate "https://999.999.999.999" = true ∧
    url_validate "not a url" = false := by
  refine ⟨fun s => rfl, ?_, ?_, ?_, ?_⟩ <;> decide

end StacUtils
